import Mathlib

/-!
Verification of the Elasticsearch nodestore backend
(`sentry_nodestore_elastic/backend.py`).

The pure helpers of the backend (`_compress`, `_decompress`, the index-name
date parsing of `cleanup`) are embedded directly.  The stateful methods
(`bootstrap`, `_get_read_index`, `delete`, `delete_multi`, `_get_bytes`,
`_set_bytes`, `cleanup`) talk to an Elasticsearch client; they are
embedded as functions of the client responses, returning both the trace
of store calls they issue and their outcome (normal return or raised
exception), mirroring the Python control flow branch by branch.

Bytes are `List Nat` with every element `< 256`; Python strings that
carry binary-safe payloads (base64 text) are lists of code points.
-/

namespace ElasticNodeStorage

/-! Model of the external compression libraries

`_compress` is `base64.b64encode(zlib.compress(data)).decode(self.encoding)` and
`_decompress` is `zlib.decompress(base64.b64decode(data))`.  `zlib` and
`base64` are external libraries, modelled here by their documented wire
formats: RFC 4648 base64 with `=` padding, and RFC 1950/1951 zlib streams
restricted to stored (uncompressed) deflate blocks — a valid lossless
compressor output, byte-exact in framing and Adler-32 checksum. -/

/-- ASCII code of position `n` of the base64 alphabet (RFC 4648). -/
def b64chr (n : Nat) : Nat :=
  if n < 26 then 65 + n
  else if n < 52 then 97 + (n - 26)
  else if n < 62 then 48 + (n - 52)
  else if n = 62 then 43
  else 47

/-- Position of ASCII code `c` in the base64 alphabet, `none` when `c`
is not in the alphabet (in particular for the pad character `=`, 61). -/
def b64idx (c : Nat) : Option Nat :=
  if 65 ≤ c ∧ c ≤ 90 then some (c - 65)
  else if 97 ≤ c ∧ c ≤ 122 then some (c - 97 + 26)
  else if 48 ≤ c ∧ c ≤ 57 then some (c - 48 + 52)
  else if c = 43 then some 62
  else if c = 47 then some 63
  else none

/-- Model of `base64.b64encode`: groups of three bytes become four alphabet
characters; a final group of one or two bytes is padded with `=` (61). -/
def b64encode : List Nat → List Nat
  | [] => []
  | [a] => [b64chr (a / 4), b64chr (a % 4 * 16), 61, 61]
  | [a, b] => [b64chr (a / 4), b64chr (a % 4 * 16 + b / 16), b64chr (b % 16 * 4), 61]
  | a :: b :: c :: rest =>
    b64chr (a / 4) :: b64chr (a % 4 * 16 + b / 16) :: b64chr (b % 16 * 4 + c / 64) ::
      b64chr (c % 64) :: b64encode rest

/-- Model of `base64.b64decode`: four characters at a time, honouring `=` padding
on the final quantum; `none` on malformed input. -/
def b64decode : List Nat → Option (List Nat)
  | [] => some []
  | c1 :: c2 :: c3 :: c4 :: rest => do
    let i1 ← b64idx c1
    let i2 ← b64idx c2
    if c3 = 61 then
      if c4 = 61 ∧ rest = [] then some [i1 * 4 + i2 / 16] else none
    else do
      let i3 ← b64idx c3
      if c4 = 61 then
        if rest = [] then some [i1 * 4 + i2 / 16, i2 % 16 * 16 + i3 / 4] else none
      else do
        let i4 ← b64idx c4
        let tl ← b64decode rest
        some ((i1 * 4 + i2 / 16) :: (i2 % 16 * 16 + i3 / 4) :: (i3 % 4 * 64 + i4) :: tl)
  | _ => none

/-- Adler-32 checksum of a byte sequence (RFC 1950 §8.2). -/
def adler32 (data : List Nat) : Nat :=
  let p := data.foldl (fun (p : Nat × Nat) x => ((p.1 + x) % 65521, (p.2 + p.1 + x) % 65521))
    (1, 0)
  p.2 * 65536 + p.1

/-- Big-endian four-byte encoding of a 32-bit checksum. -/
def adlerBytes (n : Nat) : List Nat :=
  [n / 16777216 % 256, n / 65536 % 256, n / 256 % 256, n % 256]

/-- The LEN/NLEN header of a stored deflate block: 16-bit little-endian
length followed by its bitwise complement (RFC 1951 §3.2.4). -/
def lenB (n : Nat) : List Nat :=
  [n % 256, n / 256, (65535 - n) % 256, (65535 - n) / 256]

/-- Deflate bitstream made of stored blocks: each block is a flag byte
(bit 0 = BFINAL, bits 1-2 = BTYPE = 00, padding to the byte boundary),
the LEN/NLEN header, then up to 65535 raw bytes. -/
def deflateStored (data : List Nat) : List Nat :=
  if _h : data.length ≤ 65535 then
    1 :: (lenB data.length ++ data)
  else
    0 :: (lenB 65535 ++ (data.take 65535 ++ deflateStored (data.drop 65535)))
termination_by data.length
decreasing_by simp [List.length_drop]; omega

/-- Inflate for stored blocks: consumes blocks until the final one and
returns the decoded bytes together with the unread trailer. -/
def inflateStored (s : List Nat) : Option (List Nat × List Nat) :=
  match s with
  | b :: l0 :: l1 :: n0 :: n1 :: rest =>
    let len := l0 + 256 * l1
    if (l0 + 256 * l1) + (n0 + 256 * n1) = 65535 ∧ len ≤ rest.length then
      if b = 1 then some (rest.take len, rest.drop len)
      else if b = 0 then
        match inflateStored (rest.drop len) with
        | some (out, tr) => some (rest.take len ++ out, tr)
        | none => none
      else none
    else none
  | _ => none
termination_by s.length
decreasing_by simp [List.length_drop]; omega

/-- Model of `zlib.compress` as a stored-block stream: CMF/FLG header `78 01`
(CM = 8, a header that passes the mod-31 check), the deflate stream,
then the big-endian Adler-32 of the payload (RFC 1950). -/
def zlibCompress (data : List Nat) : List Nat :=
  120 :: 1 :: (deflateStored data ++ adlerBytes (adler32 data))

/-- Model of `zlib.decompress` for stored-block streams: checks CM = 8, the
header mod-31 check, no preset dictionary, inflates, and verifies the
Adler-32 trailer; `none` on any failure. -/
def zlibDecompress (s : List Nat) : Option (List Nat) :=
  match s with
  | cmf :: flg :: rest =>
    if cmf % 16 = 8 ∧ (cmf * 256 + flg) % 31 = 0 ∧ flg / 32 % 2 = 0 then
      match inflateStored rest with
      | some (out, tr) => if tr = adlerBytes (adler32 out) then some out else none
      | none => none
    else none
  | _ => none

/-- Embedding of `_compress`: compress then base64-encode; the result is the code
point sequence of the returned `str` (base64 output is ASCII, so the
final decode step is the identity on code points). -/
def compress (data : List Nat) : List Nat :=
  b64encode (zlibCompress data)

/-- Embedding of `_decompress`: base64-decode then decompress; `none` models the
`ValueError` raised when either step fails on corrupt input. -/
def decompress (s : List Nat) : Option (List Nat) :=
  match b64decode s with
  | some bytes => zlibDecompress bytes
  | none => none

theorem b64idx_chr : ∀ i, i < 64 → b64idx (b64chr i) = some i := by decide

theorem b64chr_ne_pad : ∀ i, i < 64 → ¬ b64chr i = 61 := by decide

theorem b64_roundtrip : ∀ (l : List Nat), (∀ x ∈ l, x < 256) →
    b64decode (b64encode l) = some l
  | [], _ => rfl
  | [a], h => by
    have ha : a < 256 := h a (by simp)
    simp only [b64encode, b64decode]
    rw [b64idx_chr (a / 4) (by omega), b64idx_chr (a % 4 * 16) (by omega)]
    simp only [Option.bind_eq_bind, Option.some_bind]
    simp
    omega
  | [a, b], h => by
    have ha : a < 256 := h a (by simp)
    have hb : b < 256 := h b (by simp)
    simp only [b64encode, b64decode]
    rw [b64idx_chr (a / 4) (by omega), b64idx_chr (a % 4 * 16 + b / 16) (by omega)]
    simp only [Option.bind_eq_bind, Option.some_bind]
    rw [if_neg (b64chr_ne_pad (b % 16 * 4) (by omega))]
    rw [b64idx_chr (b % 16 * 4) (by omega)]
    simp only [Option.some_bind]
    simp
    omega
  | a :: b :: c :: rest, h => by
    have ha : a < 256 := h a (by simp)
    have hb : b < 256 := h b (by simp)
    have hc : c < 256 := h c (by simp)
    have ih := b64_roundtrip rest (fun x hx => h x (by simp [hx]))
    simp only [b64encode, b64decode]
    rw [b64idx_chr (a / 4) (by omega), b64idx_chr (a % 4 * 16 + b / 16) (by omega)]
    simp only [Option.bind_eq_bind, Option.some_bind]
    rw [if_neg (b64chr_ne_pad (b % 16 * 4 + c / 64) (by omega))]
    rw [b64idx_chr (b % 16 * 4 + c / 64) (by omega)]
    simp only [Option.some_bind]
    rw [if_neg (b64chr_ne_pad (c % 64) (by omega))]
    rw [b64idx_chr (c % 64) (by omega)]
    simp only [Option.some_bind]
    rw [ih]
    simp only [Option.some_bind, Option.some.injEq, List.cons.injEq]
    refine ⟨by omega, by omega, by omega, by trivial⟩

theorem split_append (A B : List Nat) (n : Nat) (h : A.length = n) :
    (A ++ B).take n = A ∧ (A ++ B).drop n = B := by
  subst h; exact ⟨List.take_left A B, List.drop_left A B⟩

theorem inflate_deflate (data t : List Nat) :
    inflateStored (deflateStored data ++ t) = some (data, t) := by
  rw [deflateStored]
  by_cases h : data.length ≤ 65535
  · rw [dif_pos h]
    simp only [lenB, List.cons_append, List.append_assoc, List.nil_append]
    rw [inflateStored]
    have e1 : data.length % 256 + 256 * (data.length / 256) = data.length :=
      Nat.mod_add_div data.length 256
    rw [e1]
    have e2 : (65535 - data.length) % 256 + 256 * ((65535 - data.length) / 256) =
        65535 - data.length := Nat.mod_add_div _ 256
    rw [e2]
    rw [if_pos ⟨by omega, by simp⟩]
    rw [if_pos rfl]
    rw [(split_append data t data.length rfl).1, (split_append data t data.length rfl).2]
  · rw [dif_neg h]
    have ih := inflate_deflate (data.drop 65535) t
    have hA : (data.take 65535).length = 65535 := by
      simp [List.length_take]; omega
    simp only [lenB, List.cons_append, List.append_assoc, List.nil_append]
    rw [inflateStored]
    norm_num
    constructor
    · omega
    rw [(split_append (data.take 65535) (deflateStored (data.drop 65535) ++ t) 65535 hA).2]
    rw [ih]
    rw [(split_append (data.take 65535) (deflateStored (data.drop 65535) ++ t) 65535 hA).1]
    simp only [List.take_append_drop]
termination_by data.length
decreasing_by simp [List.length_drop]; omega

theorem deflate_bytes_lt (data : List Nat) (h : ∀ x ∈ data, x < 256) :
    ∀ y ∈ deflateStored data, y < 256 := by
  rw [deflateStored]
  by_cases hl : data.length ≤ 65535
  · rw [dif_pos hl]
    intro y hy
    simp only [lenB, List.mem_cons, List.mem_append] at hy
    rcases hy with rfl | hy
    · omega
    rcases hy with hy | hy
    · simp only [List.mem_cons, List.not_mem_nil, or_false] at hy
      rcases hy with rfl | rfl | rfl | rfl <;> omega
    · exact h y hy
  · rw [dif_neg hl]
    have ih := deflate_bytes_lt (data.drop 65535) (fun x hx => h x (List.drop_subset _ _ hx))
    intro y hy
    simp only [lenB, List.mem_cons, List.mem_append] at hy
    rcases hy with rfl | hy
    · omega
    rcases hy with hy | hy | hy
    · simp only [List.mem_cons, List.not_mem_nil, or_false] at hy
      rcases hy with rfl | rfl | rfl | rfl <;> omega
    · exact h y (List.take_subset _ _ hy)
    · exact ih y hy
termination_by data.length
decreasing_by simp [List.length_drop]; omega

theorem zlib_bytes_lt (data : List Nat) (h : ∀ x ∈ data, x < 256) :
    ∀ y ∈ zlibCompress data, y < 256 := by
  intro y hy
  simp only [zlibCompress, adlerBytes, List.mem_cons, List.mem_append] at hy
  rcases hy with rfl | hy
  · omega
  rcases hy with rfl | hy
  · omega
  rcases hy with hy | hy
  · exact deflate_bytes_lt data h y hy
  · simp only [List.mem_cons, List.not_mem_nil, or_false] at hy
    rcases hy with rfl | rfl | rfl | rfl <;> omega

theorem zlib_roundtrip (data : List Nat) :
    zlibDecompress (zlibCompress data) = some data := by
  simp only [zlibCompress, zlibDecompress]
  rw [if_pos (by norm_num)]
  rw [inflate_deflate]
  simp

/-- C1: for every byte string `b` (each element a byte value), including
the empty string, `_decompress (_compress b) = b`: the compressed,
base64-encoded payload round-trips exactly. -/
theorem c1_compress_roundtrip (data : List Nat) (h : ∀ x ∈ data, x < 256) :
    decompress (compress data) = some data := by
  simp only [compress, decompress]
  rw [b64_roundtrip _ (zlib_bytes_lt data h)]
  exact zlib_roundtrip data

/-- C1 witness: the round-trip theorem applied to a concrete non-UTF8
binary payload and to the empty payload. -/
theorem c1_compress_roundtrip_witness :
    ((∀ x ∈ ([0, 255, 7, 128] : List Nat), x < 256) ∧
      decompress (compress [0, 255, 7, 128]) = some [0, 255, 7, 128]) ∧
    decompress (compress []) = some [] :=
  ⟨⟨by decide, c1_compress_roundtrip [0, 255, 7, 128] (by decide)⟩,
    c1_compress_roundtrip [] (by decide)⟩

/-! Retention sweep (`cleanup`)

`cleanup` lists the indices behind the alias (a `NotFoundError` when the
alias is missing makes it log and return), parses a date out of each
index name with the compiled `INDEX_DATE_PATTERN` regex
followed by `datetime.strptime(..., "%Y-%m-%d")`, and issues
`es.indices.delete` for each index whose midnight-UTC date is strictly
before the cutoff; names failing the regex or the strptime validation
are counted as skipped.  The embedding returns the list of
`indices.delete` calls issued and the skipped counter. -/

/-- Timezone-aware UTC datetime, compared field by field the way Python
compares `datetime` values of equal `tzinfo`; `microOfDay` collects the
sub-day fields (hour, minute, second, microsecond). -/
structure DateTime where
  year : Nat
  month : Nat
  day : Nat
  microOfDay : Nat
deriving DecidableEq, Repr

/-- Python `datetime` order on same-timezone values: lexicographic on
(year, month, day, time-of-day). -/
def dtLt (a b : DateTime) : Bool :=
  if a.year < b.year then true
  else if b.year < a.year then false
  else if a.month < b.month then true
  else if b.month < a.month then false
  else if a.day < b.day then true
  else if b.day < a.day then false
  else decide (a.microOfDay < b.microOfDay)

/-- ASCII decimal digit test, as `\d` matches it for ASCII input. -/
def isDigitCh (c : Char) : Bool :=
  48 ≤ c.toNat && c.toNat ≤ 57

/-- Numeric value of an ASCII digit. -/
def digitVal (c : Char) : Nat :=
  c.toNat - 48

/-- Embedding of `INDEX_DATE_PATTERN.match(index)`: anchored at the start, requires
the literal `sentry-` then `\d{4}-\d{2}-\d{2}`, tolerates any trailing
characters, and yields the year/month/day digit groups. -/
def matchIndexDate : List Char → Option (Nat × Nat × Nat)
  | 's' :: 'e' :: 'n' :: 't' :: 'r' :: 'y' :: '-' ::
      y1 :: y2 :: y3 :: y4 :: '-' :: m1 :: m2 :: '-' :: d1 :: d2 :: _ =>
    if isDigitCh y1 && isDigitCh y2 && isDigitCh y3 && isDigitCh y4 &&
        isDigitCh m1 && isDigitCh m2 && isDigitCh d1 && isDigitCh d2 then
      some (digitVal y1 * 1000 + digitVal y2 * 100 + digitVal y3 * 10 + digitVal y4,
        digitVal m1 * 10 + digitVal m2,
        digitVal d1 * 10 + digitVal d2)
    else none
  | _ => none

/-- Gregorian leap-year rule, as `datetime` validates day-of-month. -/
def isLeap (y : Nat) : Bool :=
  (y % 4 = 0 && y % 100 ≠ 0) || y % 400 = 0

/-- Number of days of month `m` of year `y`. -/
def daysInMonth (y m : Nat) : Nat :=
  if m = 2 then (if isLeap y then 29 else 28)
  else if m = 4 ∨ m = 6 ∨ m = 9 ∨ m = 11 then 30
  else 31

/-- Validity as enforced by `datetime.strptime(s, "%Y-%m-%d")`: the
constructor requires `MINYEAR ≤ year`, a real month and a real day
(a `ValueError` otherwise). -/
def validDate (y m d : Nat) : Bool :=
  1 ≤ y && 1 ≤ m && m ≤ 12 && 1 ≤ d && d ≤ daysInMonth y m

/-- Regex match followed by `strptime` validation: the date under which
the retention sweep classifies an index name, `none` when the name is
skipped (either no regex match or an invalid date). -/
def parseIndexDate (s : String) : Option (Nat × Nat × Nat) :=
  match matchIndexDate s.data with
  | some (y, m, d) => if validDate y m d then some (y, m, d) else none
  | none => none

/-- An index is deleted exactly when its name parses to a date whose
midnight-UTC instant is strictly before the cutoff. -/
def indexEligible (cutoff : DateTime) (index : String) : Bool :=
  match parseIndexDate index with
  | some (y, m, d) => dtLt ⟨y, m, d, 0⟩ cutoff
  | none => false

/-- Trace of a `cleanup` run: the `indices.delete` calls issued, in
order, and the skipped counter. -/
structure CleanupResult where
  deleteCalls : List String
  skippedCount : Nat
deriving DecidableEq, Repr

/-- The per-index loop of `cleanup` over the alias membership listing. -/
def cleanupScan (cutoff : DateTime) : List String → CleanupResult
  | [] => ⟨[], 0⟩
  | i :: rest =>
    let r := cleanupScan cutoff rest
    match parseIndexDate i with
    | none => ⟨r.deleteCalls, r.skippedCount + 1⟩
    | some (y, m, d) =>
      if dtLt ⟨y, m, d, 0⟩ cutoff then ⟨i :: r.deleteCalls, r.skippedCount⟩
      else r

/-- Embedding of `cleanup`: `aliasIndices` is the result of `indices.get_alias`,
`none` modelling the `NotFoundError` raised when the alias does not
exist, in which case the method logs and returns having issued no
delete. -/
def cleanup (aliasIndices : Option (List String)) (cutoff : DateTime) : CleanupResult :=
  match aliasIndices with
  | none => ⟨[], 0⟩
  | some idxs => cleanupScan cutoff idxs

/-- C2: the retention sweep issues deletes for exactly the indices whose
name-embedded date is strictly earlier than the cutoff (so an index
whose name does not parse is never deleted), counts as skipped exactly
the indices whose name fails the pattern-and-date parse, and when the
alias does not exist it returns having deleted nothing. -/
theorem c2_cleanup_retention_boundary (idxs : List String) (cutoff : DateTime) :
    (cleanup (some idxs) cutoff).deleteCalls = idxs.filter (fun i => indexEligible cutoff i) ∧
    (cleanup (some idxs) cutoff).skippedCount =
      (idxs.filter (fun i => (parseIndexDate i).isNone)).length ∧
    cleanup none cutoff = ⟨[], 0⟩ := by
  refine ⟨?_, ?_, rfl⟩ <;>
  · induction idxs with
    | nil => rfl
    | cons i rest ih =>
      simp only [cleanup, cleanupScan, List.filter] at ih ⊢
      cases hp : parseIndexDate i with
      | none => simp [indexEligible, hp, ih]
      | some ymd =>
        obtain ⟨y, m, d⟩ := ymd
        by_cases hlt : dtLt ⟨y, m, d, 0⟩ cutoff = true <;>
          simp [indexEligible, hp, hlt, ih]

/-- C3 counterexample: the date pattern is the compiled constant
`^sentry-(\d{4}-\d{2}-\d{2})`, independent of the configured index
prefix, so with the prefix `nodestore` the index
`nodestore-2023-06-01-reindex` is not parsed as a date at all and the
sweep skips it instead of deleting it under a later cutoff. -/
theorem c3_suffix_counterexample :
    parseIndexDate "nodestore-2023-06-01-reindex" = none ∧
    cleanup (some ["nodestore-2023-06-01-reindex"]) ⟨2024, 1, 1, 0⟩ =
      ⟨[], 1⟩ := by
  constructor <;> rfl

/-- C3 amended: an index named `sentry-2023-06-01-reindex` — the
hardcoded `sentry` prefix, a date, and a trailing suffix — is parsed by
the retention sweep as having date 2023-06-01 and is deleted under the
later cutoff 2023-06-02. -/
theorem c3_suffix_tolerance :
    parseIndexDate "sentry-2023-06-01-reindex" = some (2023, 6, 1) ∧
    (cleanup (some ["sentry-2023-06-01-reindex"]) ⟨2023, 6, 2, 0⟩).deleteCalls =
      ["sentry-2023-06-01-reindex"] := by
  constructor <;> rfl

/-! Locate path (`_get_read_index`)

The method first tries `es.get` through the alias.  A `NotFoundError`
returns `None`; a `RequestError` falls back to a `term` search on `_id`
across the alias and returns the `_index` of the hit only when the reported
total is exactly 1, returning `None` otherwise; any exception inside the
fallback is logged (a warning) and `None` is returned.  Exceptions other
than those two classes on the direct get are not caught. -/

/-- Outcome of the direct `es.get` through the alias: the document was
found in index `idx`, a `NotFoundError`, a `RequestError`, or any other
exception (which `_get_read_index` does not catch). -/
inductive ESGetResult where
  | found (idx : String)
  | notFound
  | requestError
  | otherError
deriving DecidableEq, Repr

/-- Outcome of the fallback `es.search`: a response whose
`hits.total.value` is `total` and whose first hit lives in `firstIndex`
(only read when `total = 1`, where `size: 1` guarantees the hit is
present), or any exception while searching or destructuring. -/
inductive ESSearchResult where
  | ok (total : Nat) (firstIndex : String)
  | err
deriving DecidableEq, Repr

/-- Raisable outcomes of the embedded methods. -/
inductive PyError where
  | valueError
  | typeError
  | storeError
deriving DecidableEq, Repr

/-- Embedding of `_get_read_index`, as a function of the two store responses:
`.ok r` is a normal return of `r`, `.error` a propagated exception. -/
def getReadIndex (g : ESGetResult) (s : ESSearchResult) :
    Except PyError (Option String) :=
  match g with
  | .found idx => .ok (some idx)
  | .notFound => .ok none
  | .otherError => .error .storeError
  | .requestError =>
    match s with
    | .ok total firstIndex => if total = 1 then .ok (some firstIndex) else .ok none
    | .err => .ok none

/-- C4: not-found on the direct get returns `None` without raising; a
request error falls back to the search, returning the owning index on
exactly one match, `None` on zero matches, and `None` (logging, not
throwing) when the fallback itself fails. -/
theorem c4_get_read_index_locate (s : ESSearchResult) (i : String) :
    getReadIndex .notFound s = .ok none ∧
    getReadIndex .requestError (.ok 1 i) = .ok (some i) ∧
    getReadIndex .requestError (.ok 0 i) = .ok none ∧
    getReadIndex .requestError .err = .ok none := by
  cases s <;> exact ⟨rfl, rfl, rfl, rfl⟩

/-- C9: when the fallback search reports more than one match for the id,
`_get_read_index` returns `None` rather than picking a hit: the fallback
only returns an index name when the hit count is exactly one. -/
theorem c9_get_read_index_multi_match (n : Nat) (i : String) (h : 1 < n) :
    getReadIndex .requestError (.ok n i) = .ok none := by
  simp only [getReadIndex]
  rw [if_neg (by omega)]

/-- C9 witness: two copies of the id behind the alias yield `None`. -/
theorem c9_get_read_index_multi_match_witness :
    getReadIndex .requestError (.ok 2 "sentry-2024-01-01") = .ok none :=
  c9_get_read_index_multi_match 2 "sentry-2024-01-01" (by decide)

/-! Delete paths (`delete`, `delete_multi`)

`delete(id)` rejects a falsy `id`, locates the owning index and issues a
direct `es.delete` there, or an `es.delete_by_query` on the alias with a
`term` filter on `_id` when locating returned nothing;
`NotFoundError` and `ConflictError` are passed over, anything else is
logged and re-raised.  `delete_multi(id_list)` returns on a falsy
argument before its `isinstance(id_list, list)` check, then issues one
`delete_by_query` on the alias with an `ids` filter. -/

/-- Outcome of a single store write call as `delete`/`delete_multi`
classify it by exception class. -/
inductive StoreOutcome where
  | ok
  | notFound
  | conflict
  | failure
deriving DecidableEq, Repr

/-- Trace of the store calls a `delete` run issues: direct deletes as
(id, index) pairs and delete-by-query calls on the alias by id. -/
structure DeleteTrace where
  directCalls : List (String × String)
  dbqCalls : List String
deriving DecidableEq, Repr

/-- Embedding of `delete`, as a function of the locate result (`_get_read_index`) and
of the outcome of the one store call it then issues. -/
def delete (id : String) (locateRes : Option String) (outcome : StoreOutcome) :
    DeleteTrace × Except PyError Unit :=
  if id = "" then (⟨[], []⟩, .error .valueError)
  else
    let trace : DeleteTrace :=
      match locateRes with
      | some idx => ⟨[(id, idx)], []⟩
      | none => ⟨[], [id]⟩
    match outcome with
    | .ok => (trace, .ok ())
    | .notFound => (trace, .ok ())
    | .conflict => (trace, .ok ())
    | .failure => (trace, .error .storeError)

/-- C5: for a non-empty id, not-found and conflict outcomes return
normally (idempotent delete); a missing locate result makes the one
store call a delete-by-query on the alias for that id; a located index
gets a direct delete there; any other store failure is re-raised. -/
theorem c5_delete_idempotent (id : String) (loc : Option String)
    (o : StoreOutcome) (h : id ≠ "") :
    ((o = .notFound ∨ o = .conflict) → (delete id loc o).2 = .ok ()) ∧
    (loc = none → (delete id loc o).1 = ⟨[], [id]⟩) ∧
    (∀ idx, loc = some idx → (delete id loc o).1 = ⟨[(id, idx)], []⟩) ∧
    (o = .failure → (delete id loc o).2 = .error .storeError) := by
  simp only [delete, if_neg h]
  refine ⟨?_, ?_, ?_, ?_⟩
  · rintro (rfl | rfl) <;> cases loc <;> rfl
  · rintro rfl; cases o <;> rfl
  · rintro idx rfl; cases o <;> rfl
  · rintro rfl; cases loc <;> rfl

/-- C5 witness: deleting an id that is already gone (locate finds no
index, the delete-by-query reports not-found) succeeds. -/
theorem c5_delete_idempotent_witness :
    ("a1b2" : String) ≠ "" ∧
    (((.notFound : StoreOutcome) = .notFound ∨ (.notFound : StoreOutcome) = .conflict) →
      (delete "a1b2" none .notFound).2 = .ok ()) ∧
    ((none : Option String) = none → (delete "a1b2" none .notFound).1 = ⟨[], ["a1b2"]⟩) ∧
    (∀ idx, (none : Option String) = some idx →
      (delete "a1b2" none .notFound).1 = ⟨[("a1b2", idx)], []⟩) ∧
    ((.notFound : StoreOutcome) = .failure →
      (delete "a1b2" none .notFound).2 = .error .storeError) :=
  ⟨by decide, c5_delete_idempotent "a1b2" none .notFound (by decide)⟩

/-- A Python value passed as `id_list`: a list of ids, or one of the
other values the dynamically typed call site can receive. -/
inductive PyValue where
  | list (xs : List String)
  | tuple (xs : List String)
  | pynone
deriving DecidableEq, Repr

/-- Python truthiness of such a value: empty collections and `None` are
falsy. -/
def pyTruthy : PyValue → Bool
  | .list xs => !xs.isEmpty
  | .tuple xs => !xs.isEmpty
  | .pynone => false

/-- Trace of the store calls a `delete_multi` run issues: each
delete-by-query call with its id set. -/
structure MultiTrace where
  dbqCalls : List (List String)
deriving DecidableEq, Repr

/-- Embedding of `delete_multi`, as a function of the outcome of its single
delete-by-query call: the `if not id_list: return` guard runs before the
`isinstance(id_list, list)` check. -/
def delete_multi (arg : PyValue) (outcome : StoreOutcome) :
    MultiTrace × Except PyError Unit :=
  if pyTruthy arg = false then (⟨[]⟩, .ok ())
  else
    match arg with
    | .list xs =>
      match outcome with
      | .ok => (⟨[xs]⟩, .ok ())
      | .notFound => (⟨[xs]⟩, .ok ())
      | .conflict => (⟨[xs]⟩, .ok ())
      | .failure => (⟨[xs]⟩, .error .storeError)
    | _ => (⟨[]⟩, .error .typeError)

/-- C6: an empty id list is a no-op issuing no store call; a non-empty
list issues exactly one delete-by-query with that id set; not-found and
conflict outcomes are swallowed; any other failure is re-raised. -/
theorem c6_delete_multi_bulk (xs : List String) (o : StoreOutcome) (h : xs ≠ []) :
    delete_multi (.list []) o = (⟨[]⟩, .ok ()) ∧
    (delete_multi (.list xs) o).1 = ⟨[xs]⟩ ∧
    ((o = .ok ∨ o = .notFound ∨ o = .conflict) → (delete_multi (.list xs) o).2 = .ok ()) ∧
    (o = .failure → (delete_multi (.list xs) o).2 = .error .storeError) := by
  have ht : pyTruthy (.list xs) = true := by
    simp [pyTruthy, List.isEmpty_iff, h]
  refine ⟨rfl, ?_, ?_, ?_⟩
  · simp only [delete_multi, ht]
    cases o <;> rfl
  · rintro (rfl | rfl | rfl) <;> simp [delete_multi, ht]
  · rintro rfl; simp [delete_multi, ht]

/-- C6 witness: a two-id bulk delete whose delete-by-query matches no
document completes without error, having issued exactly one call. -/
theorem c6_delete_multi_bulk_witness :
    (["k1", "k2"] : List String) ≠ [] ∧
    (delete_multi (.list []) .notFound = (⟨[]⟩, .ok ()) ∧
     (delete_multi (.list ["k1", "k2"]) .notFound).1 = ⟨[["k1", "k2"]]⟩ ∧
     (((.notFound : StoreOutcome) = .ok ∨ (.notFound : StoreOutcome) = .notFound ∨
        (.notFound : StoreOutcome) = .conflict) →
       (delete_multi (.list ["k1", "k2"]) .notFound).2 = .ok ()) ∧
     ((.notFound : StoreOutcome) = .failure →
       (delete_multi (.list ["k1", "k2"]) .notFound).2 = .error .storeError)) :=
  ⟨by decide, c6_delete_multi_bulk ["k1", "k2"] .notFound (by decide)⟩

/-- C10: the emptiness guard precedes the type check, so every falsy
argument — empty list, empty tuple, `None` — is a silent no-op with no
store call, while a non-empty non-list raises a `TypeError` before any
store call. -/
theorem c10_delete_multi_falsy_first (v : PyValue) (o : StoreOutcome)
    (xs : List String) (hv : pyTruthy v = false) (hxs : xs ≠ []) :
    delete_multi v o = (⟨[]⟩, .ok ()) ∧
    delete_multi (.tuple xs) o = (⟨[]⟩, .error .typeError) := by
  constructor
  · simp [delete_multi, hv]
  · have ht : pyTruthy (.tuple xs) = true := by
      simp [pyTruthy, List.isEmpty_iff, hxs]
    simp [delete_multi, ht]

/-- C10 witness: `None` is a silent no-op and a non-empty tuple raises
`TypeError`, neither issuing a store call. -/
theorem c10_delete_multi_falsy_first_witness :
    pyTruthy .pynone = false ∧ (["k1"] : List String) ≠ [] ∧
    (delete_multi .pynone .ok = (⟨[]⟩, .ok ()) ∧
     delete_multi (.tuple ["k1"]) .ok = (⟨[]⟩, .error .typeError)) :=
  ⟨by decide, by decide, c10_delete_multi_falsy_first .pynone .ok ["k1"] (by decide) (by decide)⟩

/-! Write and read paths (`_set_bytes`, `_get_bytes`)

`_set_bytes` rejects a falsy `id` with a `ValueError` before computing
the write index and issuing `es.index` with the compressed payload;
store failures are logged and re-raised.  `_get_bytes` returns `None`
for a falsy `id` without touching the store, then locates the owning
index and fetches the stored `data` field, decompressing it; not-found,
a missing `data` field, a corrupt payload and any other fetch failure
all yield `None`. -/

/-- Trace of the `es.index` calls issued by `_set_bytes`: id, target
index name, and the compressed document payload. -/
structure SetTrace where
  indexCalls : List (String × String × List Nat)
deriving DecidableEq, Repr

/-- Embedding of `_set_bytes`, as a function of the current UTC date string and of
whether the `es.index` call succeeds.  The write index is the
configured pattern with `{date}` substituted, as
`self.index.format(date=...)` does. -/
def setBytes (id : String) (data : List Nat) (pattern today : String)
    (writeOk : Bool) : SetTrace × Except PyError Unit :=
  if id = "" then (⟨[]⟩, .error .valueError)
  else
    let idx := pattern.replace "{date}" today
    if writeOk then (⟨[(id, idx, compress data)]⟩, .ok ())
    else (⟨[(id, idx, compress data)]⟩, .error .storeError)

/-- Outcome of the `es.get(..., stored_fields=["data"])` fetch: a
response carrying the stored field, a response without it, a
`NotFoundError`, or any other exception (caught, logged, `None`). -/
inductive GetDocResult where
  | fields (d : List Nat)
  | noFields
  | notFound
  | failure
deriving DecidableEq, Repr

/-- Trace of the `es.get` data fetches issued by `_get_bytes`. -/
structure GetTrace where
  getCalls : List (String × String)
deriving DecidableEq, Repr

/-- Embedding of `_get_bytes`: `id` is `Option String` because the caller may pass
`None` (both `None` and `""` are falsy).  The locate step is
`_get_read_index` on the same two store responses; an exception it
propagates is not caught here. -/
def getBytes (id : Option String) (g : ESGetResult) (s : ESSearchResult)
    (res : GetDocResult) : GetTrace × Except PyError (Option (List Nat)) :=
  match id with
  | none => (⟨[]⟩, .ok none)
  | some i =>
    if i = "" then (⟨[]⟩, .ok none)
    else
      match getReadIndex g s with
      | .error e => (⟨[]⟩, .error e)
      | .ok none => (⟨[]⟩, .ok none)
      | .ok (some idx) =>
        match res with
        | .fields d => (⟨[(i, idx)]⟩, .ok (decompress d))
        | .noFields => (⟨[(i, idx)]⟩, .ok none)
        | .notFound => (⟨[(i, idx)]⟩, .ok none)
        | .failure => (⟨[(i, idx)]⟩, .ok none)

/-- C8: `_set_bytes` and `delete` with an empty id raise `ValueError`
having issued no store call; `_get_bytes` with an empty or unset id
returns `None` without raising and without issuing a store call. -/
theorem c8_empty_id_boundary (data : List Nat) (pattern today : String)
    (writeOk : Bool) (loc : Option String) (o : StoreOutcome)
    (g : ESGetResult) (s : ESSearchResult) (res : GetDocResult) :
    setBytes "" data pattern today writeOk = (⟨[]⟩, .error .valueError) ∧
    delete "" loc o = (⟨[], []⟩, .error .valueError) ∧
    getBytes none g s res = (⟨[]⟩, .ok none) ∧
    getBytes (some "") g s res = (⟨[]⟩, .ok none) := by
  exact ⟨rfl, rfl, rfl, rfl⟩

/-! Bootstrap

`bootstrap` checks `indices.get_index_template(name=self.template_name)`;
on `NotFoundError` it issues `put_index_template` with `create=True`,
the literal `index_patterns=["sentry-*"]`, and an `aliases` binding for
`self.alias_name`; when the template exists it only logs.  A
`RequestError` from the creation is logged and re-raised. -/

/-- The arguments of the one `put_index_template` request `bootstrap`
can issue. -/
structure PutTemplateCall where
  create : Bool
  name : String
  indexPatterns : List String
  aliases : List String
deriving DecidableEq, Repr

/-- The configuration fields of the backend that `bootstrap` can read:
the index name pattern, the template name, and the alias name. -/
structure Config where
  index : String
  templateName : String
  aliasName : String
deriving DecidableEq, Repr

/-- Model of the store operation `put_index_template(create=True, ...)`: fails when a
template of that name already exists, otherwise registers it. -/
def putIndexTemplateCreate (templates : List String) (name : String) :
    Option (List String) :=
  if name ∈ templates then none else some (name :: templates)

/-- Embedding of `bootstrap`, over the current template set of the store: returns the new
template set, the `put_index_template` call issued (if any), and the
outcome (`RequestError` from a failed creation is re-raised). -/
def bootstrap (cfg : Config) (templates : List String) :
    List String × Option PutTemplateCall × Except PyError Unit :=
  if cfg.templateName ∈ templates then (templates, none, .ok ())
  else
    let call : PutTemplateCall :=
      ⟨true, cfg.templateName, ["sentry-*"], [cfg.aliasName]⟩
    match putIndexTemplateCreate templates cfg.templateName with
    | some ts => (ts, some call, .ok ())
    | none => (templates, some call, .error .storeError)

/-- C7 counterexample: `bootstrap` hardcodes
`index_patterns=["sentry-*"]`; with the configured index pattern
`events-{date}` the template it creates still carries `sentry-*`, not a
pattern derived from the configured prefix. -/
theorem c7_bootstrap_pattern_counterexample :
    (bootstrap ⟨"events-{date}", "sentry", "sentry"⟩ []).2.1 =
      some ⟨true, "sentry", ["sentry-*"], ["sentry"]⟩ ∧
    (["sentry-*"] : List String) ≠ ["events-*"] := by
  exact ⟨rfl, by decide⟩

/-- C7 amended: when a template of the configured name exists,
`bootstrap` is a no-op that leaves the template set untouched; when it
is absent, it creates it with the fixed index-name pattern `sentry-*`
(not one derived from the configured index prefix) and binds the
configured alias name; the first call never errors against a store with
create-if-absent semantics and a second call is always a put-free
no-op. -/
theorem c7_bootstrap_idempotent (cfg : Config) (ts : List String) :
    (cfg.templateName ∈ ts → bootstrap cfg ts = (ts, none, .ok ())) ∧
    (cfg.templateName ∉ ts →
      bootstrap cfg ts = (cfg.templateName :: ts,
        some ⟨true, cfg.templateName, ["sentry-*"], [cfg.aliasName]⟩, .ok ())) ∧
    (bootstrap cfg ts).2.2 = .ok () ∧
    bootstrap cfg (bootstrap cfg ts).1 = ((bootstrap cfg ts).1, none, .ok ()) := by
  by_cases h : cfg.templateName ∈ ts
  · refine ⟨fun _ => by simp [bootstrap, h], fun hn => absurd h hn, ?_, ?_⟩
    · simp [bootstrap, h]
    · simp [bootstrap, h]
  · have hpos : putIndexTemplateCreate ts cfg.templateName =
        some (cfg.templateName :: ts) := by
      simp [putIndexTemplateCreate, h]
    refine ⟨fun hm => absurd hm h, fun _ => ?_, ?_, ?_⟩
    · simp [bootstrap, h, hpos]
    · simp [bootstrap, h, hpos]
    · simp [bootstrap, h, hpos]

/-- C7 witness: with the default configuration over a store with no
templates, the first call creates the template with pattern `sentry-*`
and alias `sentry`. -/
theorem c7_bootstrap_idempotent_witness :
    bootstrap ⟨"sentry-{date}", "sentry", "sentry"⟩ [] =
      (["sentry"], some ⟨true, "sentry", ["sentry-*"], ["sentry"]⟩, .ok ()) :=
  (c7_bootstrap_idempotent ⟨"sentry-{date}", "sentry", "sentry"⟩ []).2.1 (by decide)

end ElasticNodeStorage
